import Mathlib

/-!
Verification of the custom MCP stdio client (`src/custom-mcp-client/src/mcpClient.js`).

The JavaScript `MCPClient` class is embedded shallowly:

* the mutable instance fields become a `Client` structure;
* the JS `Map` of pending requests stores only `resolve`/`reject`
  continuations keyed by the numeric request id, so the pending table is
  embedded as the list of its keys (with JS `Map` semantics: `set` keeps
  an existing key, `delete` removes it);
* promise settlement is made observable as an `Outcome` value
  (`resolved id result` / `rejected id message`);
* event-emitter emissions become `Emit` values;
* the asynchronous environment (the child process and its replies) is
  passed in explicitly: a request round trip receives a `ReqReply`
  describing whether a matching response line arrived or the 30-second
  timer fired first, and `connect` receives the stream of startup events
  observed before readiness.

JSON values are embedded with integer numerics, which covers every value
the client itself manipulates (ids are integers; payloads are opaque).
-/

namespace MCP

/-- JSON values as parsed from one stdout line (numbers restricted to
integers, which is all the client inspects). -/
inductive Json where
  | null : Json
  | bool (b : Bool) : Json
  | num (n : Int) : Json
  | str (s : String) : Json
  | arr (xs : List Json) : Json
  | obj (fields : List (String × Json)) : Json
  deriving Inhabited

/-- JavaScript truthiness of a JSON value (`undefined` is represented as
`Option.none` at use sites). -/
def jsonTruthy : Json → Bool
  | Json.null => false
  | Json.bool b => b
  | Json.num n => n != 0
  | Json.str s => !s.isEmpty
  | Json.arr _ => true
  | Json.obj _ => true

/-- Whether a JSON value is the JS `null` — property access on it
throws a `TypeError` instead of yielding `undefined`. -/
def jsNullish : Json → Bool
  | Json.null => true
  | _ => false

/-- Property access `v.k` on a JSON value that is not nullish: a field
of an object, and `undefined` (`none`) on every other non-null value.
Access on `null` throws in JS; call sites model that throw explicitly
via `jsNullish` (or only reach this after a truthiness check, which
already excludes `null`). -/
def jsFieldOpt : Json → String → Option Json
  | Json.obj fs, k => (fs.find? (fun p => p.1 == k)).map Prod.snd
  | _, _ => none

/-- How a JS value prints inside a template literal; `none` is
`undefined`. Only used to build error-message strings. -/
def displayJson : Option Json → String
  | none => "undefined"
  | some Json.null => "null"
  | some (Json.bool true) => "true"
  | some (Json.bool false) => "false"
  | some (Json.num n) => toString n
  | some (Json.str s) => s
  | some (Json.arr _) => "array"
  | some (Json.obj _) => "object"

/-- The spawned child process handle; `stdin` records that its stdin pipe
is available (the source spawns with all three stdio streams piped). -/
structure ServerProcess where
  stdin : Bool
  deriving DecidableEq, Repr

/-- The mutable fields of the JS `MCPClient` class (constructor,
`mcpClient.js` lines 10-21). The pending-request `Map` stores promise
continuations keyed by request id; since settlement is reported through
`Outcome` values, the embedding keeps the list of its keys. -/
structure Client where
  serverPath : String
  args : List String
  requestId : Nat
  pendingRequests : List Nat
  serverProcess : Option ServerProcess
  isConnected : Bool
  isInitialized : Bool
  availableTools : Json
  availableResources : Json

/-- The constructor: `new MCPClient(serverPath, args)`. -/
def mkClient (serverPath : String) (args : List String) : Client :=
  { serverPath := serverPath
    args := args
    requestId := 0
    pendingRequests := []
    serverProcess := none
    isConnected := false
    isInitialized := false
    availableTools := Json.arr []
    availableResources := Json.arr [] }

/-- JS `Map.has` on the pending table. -/
def mapHas (m : List Nat) (k : Nat) : Bool := m.contains k

/-- JS `Map.set` on the pending table (keys only: an existing key stays, a
new key is appended in insertion order, as a JS `Map` does). -/
def mapSet (m : List Nat) (k : Nat) : List Nat :=
  if m.contains k then m else m ++ [k]

/-- JS `Map.delete` on the pending table. -/
def mapDelete (m : List Nat) (k : Nat) : List Nat :=
  m.filter (fun x => x ≠ k)

/-- An outgoing JSON-RPC request (`jsonrpc` is always the constant
`"2.0"` in the source and is omitted). -/
structure Request where
  id : Nat
  method : String
  params : Option Json

/-- A parsed JSON-RPC response line. `id` is `none` when the line has no
(integer) `id` field; `error`/`result` are `none` when absent. -/
structure Response where
  id : Option Int
  error : Option Json
  result : Option Json

/-- Settlement of one request promise, as performed by the stored
`resolve`/`reject` continuations. -/
inductive Outcome where
  | resolved (id : Nat) (result : Option Json) : Outcome
  | rejected (id : Nat) (msg : String) : Outcome

/-- Events emitted on the client's event emitter. `disconnectedEv none`
is the payload-less emission from `disconnect()`; the process-exit
handler attaches the exit code and signal. -/
inductive Emit where
  | connectedEv : Emit
  | disconnectedEv (info : Option (Option Int × Option String)) : Emit
  | errorEv (msg : String) : Emit
  deriving DecidableEq, Repr

/-- The per-request timer armed by `sendRequest` (lines 262-267): after
`delayMs` it fires `onRequestTimeout` with the captured id and method. -/
structure Timer where
  id : Nat
  method : String
  delayMs : Nat
  deriving DecidableEq, Repr

/-- The request timeout constant (line 267). -/
def requestTimeoutMs : Nat := 30000

/-- The startup timeout constant (line 116). -/
def startupTimeoutMs : Nat := 10000

/-- What `sendRequest` did: either the eager rejection of the promise
with `'Server not connected'`, or one line written to the child's stdin
together with the armed timeout timer. -/
inductive SendEffect where
  | eagerReject (msg : String) : SendEffect
  | sent (written : Request) (timer : Timer) : SendEffect

/-- Method `sendRequest` (lines 249-269). The source writes
`JSON.stringify(request) + '\n'`; the effect records the request that
was serialized. The promise's continuations are registered in the
pending table under `request.id`. -/
def sendRequest (c : Client) (req : Request) : Client × SendEffect :=
  match c.serverProcess with
  | none => (c, SendEffect.eagerReject "Server not connected")
  | some p =>
    if !p.stdin then (c, SendEffect.eagerReject "Server not connected")
    else
      ({ c with pendingRequests := mapSet c.pendingRequests req.id },
       SendEffect.sent req ⟨req.id, req.method, requestTimeoutMs⟩)

/-- Method `getNextId` (lines 289-291): `++this.requestId`. -/
def getNextId (c : Client) : Nat × Client :=
  (c.requestId + 1, { c with requestId := c.requestId + 1 })

/-- The message of the rejection built from a truthy `error` field:
`response.error.message || 'Unknown error'` (line 279). -/
def jsErrorMessage (e : Json) : String :=
  match jsFieldOpt e "message" with
  | some v => if jsonTruthy v then displayJson (some v) else "Unknown error"
  | none => "Unknown error"

/-- The value a pending promise is settled with for a given response:
`reject(new Error(response.error.message || 'Unknown error'))` when the
`error` field is present and truthy, else `resolve(response.result)`
(lines 278-282). -/
def settleValue (resp : Response) : Except String (Option Json) :=
  match resp.error with
  | some e =>
    if jsonTruthy e then Except.error (jsErrorMessage e)
    else Except.ok resp.result
  | none => Except.ok resp.result

/-- The pending-table key a response line addresses: its `id` field when
that is a nonnegative integer (the only ids the client ever assigns);
any other `id` matches no entry of the `Map`. -/
def respIdKey : Option Int → Option Nat
  | some n => if 0 ≤ n then some n.toNat else none
  | none => none

/-- Method `handleResponse` (lines 274-284): look the response's `id` up in the
pending table; if found, remove the entry and settle its promise; if not
found, do nothing. -/
def handleResponse (c : Client) (resp : Response) : Client × List Outcome :=
  match respIdKey resp.id with
  | some k =>
    if mapHas c.pendingRequests k then
      ({ c with pendingRequests := mapDelete c.pendingRequests k },
       match settleValue resp with
       | Except.error m => [Outcome.rejected k m]
       | Except.ok v => [Outcome.resolved k v])
    else (c, [])
  | none => (c, [])

/-- The timer callback armed by `sendRequest` (lines 262-267): if the id
is still pending, drop the entry and reject with
`'Request timeout: ' + method`. -/
def onRequestTimeout (c : Client) (id : Nat) (method : String) :
    Client × List Outcome :=
  if mapHas c.pendingRequests id then
    ({ c with pendingRequests := mapDelete c.pendingRequests id },
     [Outcome.rejected id ("Request timeout: " ++ method)])
  else (c, [])

/-- The `serverProcess.on('error')` handler (lines 97-100): log and
re-emit the error; no client state changes and no promise settles. -/
def onProcessError (c : Client) (msg : String) : Client × List Emit :=
  (c, [Emit.errorEv msg])

/-- The `serverProcess.on('exit')` handler (lines 102-106): clear
`isConnected` and emit `disconnected` with the exit code and signal. -/
def onExit (c : Client) (code : Option Int) (signal : Option String) :
    Client × List Emit :=
  ({ c with isConnected := false },
   [Emit.disconnectedEv (some (code, signal))])

/-- Method `disconnect` (lines 296-305): kill the process when one exists, null
the handle, clear both flags, emit a payload-less `disconnected`. The
returned `Bool` records whether `kill()` was invoked. -/
def disconnect (c : Client) : Client × Bool × List Emit :=
  ({ c with serverProcess := none, isConnected := false, isInitialized := false },
   c.serverProcess.isSome,
   [Emit.disconnectedEv none])

/-- Method `isClientConnected` (lines 324-326). -/
def isClientConnected (c : Client) : Bool :=
  c.isConnected && c.isInitialized

/-- The environment's reply to one outstanding request: either a
matching response line arrived before the 30-second timer, or the timer
fired first. -/
inductive ReqReply where
  | answered (resp : Response) : ReqReply
  | timedOut : ReqReply

/-- Delivery of the environment's reply for the request with the given
assigned `id` and `method`: a matching response line runs
`handleResponse`; a timeout runs the timer callback. The second
component is what `await sendRequest(...)` then yields (the promise's
settlement, as produced by the stored continuations). -/
def awaitReply (c : Client) (id : Nat) (method : String) (r : ReqReply) :
    Client × Except String (Option Json) :=
  match r with
  | ReqReply.answered resp =>
    let rid : Response := { resp with id := some (id : Int) }
    ((handleResponse c rid).1, settleValue rid)
  | ReqReply.timedOut =>
    ((onRequestTimeout c id method).1,
     Except.error ("Request timeout: " ++ method))

/-- One awaited request round trip as all public methods perform it:
obtain a fresh id with `getNextId`, run `sendRequest`, then either
propagate its eager rejection or let the environment settle the
promise. -/
def roundTrip (c : Client) (method : String) (params : Option Json)
    (r : ReqReply) : Client × Except String (Option Json) :=
  let (id, c1) := getNextId c
  match sendRequest c1 ⟨id, method, params⟩ with
  | (c2, SendEffect.eagerReject msg) => (c2, Except.error msg)
  | (c2, SendEffect.sent _ _) => awaitReply c2 id method r

/-- Method `listTools` (lines 190-198). -/
def listTools (c : Client) (r : ReqReply) :
    Client × Except String (Option Json) :=
  roundTrip c "tools/list" none r

/-- Method `listResources` (lines 203-211). -/
def listResources (c : Client) (r : ReqReply) :
    Client × Except String (Option Json) :=
  roundTrip c "resources/list" none r

/-- Method `callTool` (lines 216-228). -/
def callTool (c : Client) (name : String) (arguments : Json)
    (r : ReqReply) : Client × Except String (Option Json) :=
  roundTrip c "tools/call"
    (some (Json.obj [("name", Json.str name), ("arguments", arguments)])) r

/-- Method `readResource` (lines 233-244). -/
def readResource (c : Client) (uri : String) (r : ReqReply) :
    Client × Except String (Option Json) :=
  roundTrip c "resources/read" (some (Json.obj [("uri", Json.str uri)])) r

/-- The `params` object of the `initialize` request (lines 139-151). -/
def initParams : Json :=
  Json.obj
    [("protocolVersion", Json.str "2024-11-05"),
     ("capabilities",
      Json.obj
        [("roots", Json.obj [("listChanged", Json.bool true)]),
         ("sampling", Json.obj [])]),
     ("clientInfo",
      Json.obj
        [("name", Json.str "custom-mcp-client"),
         ("version", Json.str "1.0.0")])]

/-- Lines 156-160: the `response.error` check on the awaited payload —
a truthy `error` property throws `Initialization failed:`; otherwise
`isInitialized` is set. -/
def initErrorCheck (c1 : Client) (errField : Option Json) :
    Except String Client :=
  match errField with
  | some v =>
    if jsonTruthy v then
      Except.error
        ("Initialization failed: " ++ displayJson (jsFieldOpt v "message"))
    else Except.ok { c1 with isInitialized := true }
  | none => Except.ok { c1 with isInitialized := true }

/-- Line 156 applied to a present `result` payload: `response.error`
throws a `TypeError` when the payload is JSON `null`; otherwise the
`error` property (or `undefined`) goes to `initErrorCheck`. -/
def initResultCheck (c1 : Client) (res : Json) : Except String Client :=
  if jsNullish res then
    Except.error "TypeError: Cannot read properties of null"
  else initErrorCheck c1 (jsFieldOpt res "error")

/-- Lines 154-161 of `initialize`, applied to the settlement of the
awaited `initialize` request: a rejection propagates; the awaited value
is the response's `result` payload, so line 156's `response.error` check
inspects a field of that payload — accessing `.error` on an `undefined`
or `null` payload throws a `TypeError`, and a truthy `error` property
triggers the `Initialization failed:` throw. Otherwise `isInitialized`
is set. -/
def initCheck (c1 : Client) (settled : Except String (Option Json)) :
    Except String Client :=
  match settled with
  | Except.error e => Except.error e
  | Except.ok none =>
    Except.error "TypeError: Cannot read properties of undefined"
  | Except.ok (some res) => initResultCheck c1 res

/-- Lines 135-161 of `initialize`: build the `initialize` request, run
its round trip, and apply `initCheck` to the awaited settlement and the
resulting client state. -/
def initHandshake (c : Client) (r : ReqReply) : Except String Client :=
  initCheck (roundTrip c "initialize" (some initParams) r).1
    (roundTrip c "initialize" (some initParams) r).2

/-- A truthy value passes through; a falsy or `undefined` one gives the
`|| []` default. -/
def jsTruthyOrEmptyArr : Option Json → Json
  | some v => if jsonTruthy v then v else Json.arr []
  | none => Json.arr []

/-- Line 179, `resourcesResponse.resources || []` applied to a present
payload: property access on a JSON-null payload throws a `TypeError`
that the enclosing `catch` absorbs, leaving the resource catalog as it
was; any other payload yields its truthy `resources` field or the `[]`
default. -/
def applyResources (c3 : Client) (rres : Json) : Client :=
  if jsNullish rres then c3
  else
    { c3 with
        availableResources := jsTruthyOrEmptyArr (jsFieldOpt rres "resources") }

/-- The second half of `loadCapabilities` (lines 177-180): the
`resources/list` round trip. A rejection (or a `TypeError` from
`.resources` on an `undefined` or `null` payload) is swallowed by the
enclosing `catch` and leaves the resource catalog as it was. -/
def loadResourcesInto (c2 : Client) (rr : ReqReply) : Client :=
  match (listResources c2 rr).2 with
  | Except.error _ => (listResources c2 rr).1
  | Except.ok none => (listResources c2 rr).1
  | Except.ok (some rres) => applyResources (listResources c2 rr).1 rres

/-- Line 174, `toolsResponse.tools || []` applied to a present payload:
property access on a JSON-null payload throws a `TypeError` that the
`catch` absorbs — both catalogs stay as they were and `resources/list`
is never issued; any other payload yields its truthy `tools` field or
the `[]` default, after which the `resources/list` leg runs. -/
def applyTools (c1 : Client) (tr : Json) (rr : ReqReply) : Client :=
  if jsNullish tr then c1
  else
    loadResourcesInto
      { c1 with availableTools := jsTruthyOrEmptyArr (jsFieldOpt tr "tools") }
      rr

/-- Method `loadCapabilities` (lines 170-185), with the replies to its two
round trips supplied by the environment. The whole body sits in a
`try`/`catch` whose handler only logs: a rejected `listTools` (or a
`TypeError` from `.tools` on an `undefined` or `null` payload) skips the
`listResources` call and leaves both catalogs as they were. -/
def loadCapabilities (c : Client) (rt rr : ReqReply) : Client :=
  match (listTools c rt).2 with
  | Except.error _ => (listTools c rt).1
  | Except.ok none => (listTools c rt).1
  | Except.ok (some tr) => applyTools (listTools c rt).1 tr rr

/-- The full `initialize` method (lines 134-165): the handshake
followed, on success, by the best-effort capability load. -/
def initializeSession (c : Client) (r rt rr : ReqReply) : Except String Client :=
  match initHandshake c r with
  | Except.error e => Except.error e
  | Except.ok c1 => Except.ok (loadCapabilities c1 rt rr)

/-- Boolean test that `pat` occurs as a contiguous run at the head of
`s`. -/
def startsWithChars : List Char → List Char → Bool
  | [], _ => true
  | _ :: _, [] => false
  | a :: as, b :: bs => a == b && startsWithChars as bs

/-- Boolean substring test on character lists. -/
def hasSubstrChars (pat : List Char) : List Char → Bool
  | [] => pat.isEmpty
  | b :: bs => startsWithChars pat (b :: bs) || hasSubstrChars pat bs

/-- The JS `String.includes` test, as used by the readiness check. -/
def containsSubstring (s pat : String) : Bool :=
  hasSubstrChars pat.data s.data

/-- An event observable during startup: a chunk of stderr data, a
process `error` event, or the 10-second startup timer firing. -/
inductive StartupEv where
  | stderrData (s : String) : StartupEv
  | procErrorEv (msg : String) : StartupEv
  | startupTimeout : StartupEv

/-- Method `waitForServerReady` (lines 112-129) over the ordered startup
events: the promise resolves at the first stderr chunk containing
`"Server running"`, rejects with `Server startup timeout` when the
10-second timer fires first, and ignores process `error` events (the
`error` handler neither resolves nor rejects it). `none` means the
promise never settles within the observed events. -/
def waitForServerReady : List StartupEv → Option (Except String Unit)
  | [] => none
  | StartupEv.stderrData s :: rest =>
    if containsSubstring s "Server running" then some (Except.ok ())
    else waitForServerReady rest
  | StartupEv.procErrorEv _ :: rest => waitForServerReady rest
  | StartupEv.startupTimeout :: _ =>
    some (Except.error "Server startup timeout")

/-- The emissions produced by the permanent `serverProcess.on('error')`
handler while the startup events unfold. -/
def startupEmits : List StartupEv → List Emit
  | [] => []
  | StartupEv.procErrorEv m :: rest => Emit.errorEv m :: startupEmits rest
  | _ :: rest => startupEmits rest

/-- Method `connect` (lines 26-54) with the environment made explicit: spawn
stores the process handle (all stdio piped), then `waitForServerReady`
must resolve, then `initialize` must succeed, and only then is
`isConnected` set and `connected` emitted. Any rejection is re-thrown by
the `catch` block. `none` means `connect` never settles within the
observed startup events. -/
def connectResult (c : Client) (trace : List StartupEv) (r rt rr : ReqReply) :
    Option (Except String Client) :=
  match waitForServerReady trace with
  | none => none
  | some (Except.error e) => some (Except.error e)
  | some (Except.ok _) =>
    match initializeSession
        { c with serverProcess := some { stdin := true } } r rt rr with
    | Except.error e => some (Except.error e)
    | Except.ok c1 => some (Except.ok { c1 with isConnected := true })

/-- Whether a reply makes the awaiting caller's `try` block fail: the
timer fired, the promise was rejected with the response's error, or the
`result` payload was `undefined` or `null` so that the subsequent
property access on it throws. -/
def replyFailed : ReqReply → Bool
  | ReqReply.timedOut => true
  | ReqReply.answered resp =>
    match settleValue resp with
    | Except.error _ => true
    | Except.ok none => true
    | Except.ok (some v) => jsNullish v

/-- A sequence of requests issued back to back — each obtains its id
from `getNextId` and goes through `sendRequest` — with no intervening
response, as in property P1. Returns the final state and the assigned
ids in issue order. -/
def issueRequests (c : Client) (methods : List String) : Client × List Nat :=
  match methods with
  | [] => (c, [])
  | m :: ms =>
    let (id, c1) := getNextId c
    let (c2, _) := sendRequest c1 ⟨id, m, none⟩
    let (c3, ids) := issueRequests c2 ms
    (c3, id :: ids)

/-- One issuing step of `issueRequests`: a fresh id from `getNextId`
followed by `sendRequest` with that id. -/
def issueStep (c : Client) (m : String) : Client :=
  (sendRequest { c with requestId := c.requestId + 1 }
    ⟨c.requestId + 1, m, none⟩).1

/-- The pending-table invariant maintained by the correlator: keys are
pairwise distinct and never exceed the id counter (so a fresh id is
never a key that is still pending). -/
def pendingInv (c : Client) : Prop :=
  c.pendingRequests.Nodup ∧ ∀ k ∈ c.pendingRequests, k ≤ c.requestId

/-- Agreement of every client field except the id counter and the
pending table — the request correlator touches nothing else. -/
def SameShell (c c' : Client) : Prop :=
  c'.serverPath = c.serverPath ∧ c'.args = c.args ∧
  c'.serverProcess = c.serverProcess ∧ c'.isConnected = c.isConnected ∧
  c'.isInitialized = c.isInitialized ∧
  c'.availableTools = c.availableTools ∧
  c'.availableResources = c.availableResources

/-- The client state produced by a fully successful `connect()` run
against a well-behaved environment (used to evaluate theorems on a
concrete successful connection). -/
def connectedSample : Client :=
  { mkClient "dist/src/index.js" [] with
      serverProcess := some ⟨true⟩
      requestId := 2
      isInitialized := true
      isConnected := true }

/-- A concrete connected client with three pending requests, used to
evaluate the theorems below on explicit inputs. -/
def sampleClient : Client :=
  { mkClient "dist/src/index.js" ["sqlite", "data.db"] with
      serverProcess := some ⟨true⟩
      requestId := 3
      pendingRequests := [1, 2, 3]
      isConnected := true
      isInitialized := true }

theorem mapHas_iff {m : List Nat} {k : Nat} : mapHas m k = true ↔ k ∈ m := by
  simp [mapHas, List.contains, List.elem_iff]

theorem mapHas_eq_false_iff {m : List Nat} {k : Nat} :
    mapHas m k = false ↔ k ∉ m := by
  rw [← Bool.not_eq_true, mapHas_iff]

theorem mem_mapDelete {m : List Nat} {k j : Nat} :
    j ∈ mapDelete m k ↔ j ∈ m ∧ j ≠ k := by
  simp [mapDelete, List.mem_filter]

theorem mapHas_mapDelete_self (m : List Nat) (k : Nat) :
    mapHas (mapDelete m k) k = false := by
  rw [mapHas_eq_false_iff]
  intro hmem
  exact (mem_mapDelete.mp hmem).2 rfl

theorem mapHas_mapDelete_ne (m : List Nat) {k j : Nat} (h : j ≠ k) :
    mapHas (mapDelete m k) j = mapHas m j := by
  cases hb : mapHas m j with
  | false =>
    rw [mapHas_eq_false_iff] at hb ⊢
    intro hmem
    exact hb (mem_mapDelete.mp hmem).1
  | true =>
    rw [mapHas_iff] at hb ⊢
    exact mem_mapDelete.mpr ⟨hb, h⟩

theorem mem_mapSet {m : List Nat} {k j : Nat} :
    j ∈ mapSet m k ↔ j ∈ m ∨ j = k := by
  by_cases hk : k ∈ m
  · rw [mapSet, if_pos (show m.contains k = true from mapHas_iff.mpr hk)]
    constructor
    · exact fun hj => Or.inl hj
    · rintro (hj | rfl)
      · exact hj
      · exact hk
  · have hc : ¬(m.contains k = true) := fun hcc => hk (mapHas_iff.mp hcc)
    rw [mapSet, if_neg hc]
    simp [List.mem_append]

theorem mapSet_nodup {m : List Nat} (k : Nat) (h : m.Nodup) :
    (mapSet m k).Nodup := by
  by_cases hk : k ∈ m
  · rw [mapSet, if_pos (show m.contains k = true from mapHas_iff.mpr hk)]
    exact h
  · have hc : ¬(m.contains k = true) := fun hcc => hk (mapHas_iff.mp hcc)
    rw [mapSet, if_neg hc]
    simp [List.nodup_append, h, hk]

theorem respIdKey_natCast (k : Nat) : respIdKey (some (k : Int)) = some k := by
  simp [respIdKey]

/-- C9: `disconnect()` is idempotent: after a first call the state is
Disconnected (both flags cleared); a second call is not an error (it is
total, skips the `kill()` because the handle is already null, and
re-emits the same payload-less `disconnected` event) and leaves the
state unchanged, still Disconnected. -/
theorem disconnect_idempotent (c : Client) :
    ((disconnect c).1.isConnected = false) ∧
    ((disconnect c).1.isInitialized = false) ∧
    ((disconnect (disconnect c).1).1 = (disconnect c).1) ∧
    ((disconnect (disconnect c).1).1.isConnected = false) ∧
    ((disconnect (disconnect c).1).2.1 = false) ∧
    ((disconnect (disconnect c).1).2.2 = [Emit.disconnectedEv none]) :=
  ⟨rfl, rfl, rfl, rfl, rfl, rfl⟩

/-- C8: any process exit clears `isConnected` only and emits
`disconnected` with the exit code and signal; the pending table is left
untouched, so a request pending at exit time is orphaned and is only
rejected later when its own 30-second timer fires, with its timeout
message — the exit itself settles no promise (the handler's return type
contains no `Outcome` at all). -/
theorem onExit_orphans_pending (c : Client) (code : Option Int)
    (sig : Option String) (id : Nat) (m : String) :
    ((onExit c code sig).1 = { c with isConnected := false }) ∧
    ((onExit c code sig).2 = [Emit.disconnectedEv (some (code, sig))]) ∧
    ((onExit c code sig).1.pendingRequests = c.pendingRequests) ∧
    ((onExit c code sig).1.isInitialized = c.isInitialized) ∧
    (mapHas c.pendingRequests id = true →
      onRequestTimeout (onExit c code sig).1 id m =
        ({ c with
            isConnected := false,
            pendingRequests := mapDelete c.pendingRequests id },
         [Outcome.rejected id ("Request timeout: " ++ m)])) := by
  refine ⟨rfl, rfl, rfl, rfl, fun hpend => ?_⟩
  unfold onRequestTimeout onExit
  simp only [hpend, if_pos]

theorem onExit_orphans_pending_witness :
    ((onExit sampleClient (some 1) none).1 =
      { sampleClient with isConnected := false }) ∧
    ((onExit sampleClient (some 1) none).2 =
      [Emit.disconnectedEv (some (some 1, none))]) ∧
    ((onExit sampleClient (some 1) none).1.pendingRequests =
      sampleClient.pendingRequests) ∧
    ((onExit sampleClient (some 1) none).1.isInitialized =
      sampleClient.isInitialized) ∧
    (mapHas sampleClient.pendingRequests 2 = true →
      onRequestTimeout (onExit sampleClient (some 1) none).1 2 "tools/call" =
        ({ sampleClient with
            isConnected := false,
            pendingRequests := mapDelete sampleClient.pendingRequests 2 },
         [Outcome.rejected 2 ("Request timeout: " ++ "tools/call")])) :=
  onExit_orphans_pending sampleClient (some 1) none 2 "tools/call"

/-- C1: a response line whose `id` is the key `k` of a pending request
settles exactly that request — resolving it with the response's `result`
field, or rejecting it when the response carries a (truthy) `error`
field — removes entry `k` from the pending table, changes nothing else
in the client, and leaves the pending status of every other id
unchanged. -/
theorem handleResponse_correlates (c : Client) (resp : Response) (k : Nat)
    (hid : resp.id = some (k : Int))
    (hk : mapHas c.pendingRequests k = true) :
    ((handleResponse c resp).1 =
      { c with pendingRequests := mapDelete c.pendingRequests k }) ∧
    (mapHas (handleResponse c resp).1.pendingRequests k = false) ∧
    (∀ j, j ≠ k →
      mapHas (handleResponse c resp).1.pendingRequests j =
        mapHas c.pendingRequests j) ∧
    (resp.error = none →
      (handleResponse c resp).2 = [Outcome.resolved k resp.result]) ∧
    (∀ e, resp.error = some e → jsonTruthy e = true →
      (handleResponse c resp).2 = [Outcome.rejected k (jsErrorMessage e)]) := by
  have hkey : respIdKey resp.id = some k := by rw [hid]; exact respIdKey_natCast k
  have hmain :
      handleResponse c resp =
        ({ c with pendingRequests := mapDelete c.pendingRequests k },
         match settleValue resp with
         | Except.error m => [Outcome.rejected k m]
         | Except.ok v => [Outcome.resolved k v]) := by
    unfold handleResponse
    rw [hkey]
    simp only [hk, if_pos]
  refine ⟨?_, ?_, ?_, ?_, ?_⟩
  · rw [hmain]
  · rw [hmain]
    exact mapHas_mapDelete_self c.pendingRequests k
  · intro j hj
    rw [hmain]
    exact mapHas_mapDelete_ne c.pendingRequests hj
  · intro herr
    rw [hmain]
    unfold settleValue
    rw [herr]
  · intro e herr htr
    rw [hmain]
    unfold settleValue
    rw [herr]
    simp only [htr, if_pos]

theorem handleResponse_correlates_witness :
    ((handleResponse sampleClient ⟨some 2, none, some (Json.str "ok")⟩).1 =
      { sampleClient with
          pendingRequests := mapDelete sampleClient.pendingRequests 2 }) ∧
    (mapHas (handleResponse sampleClient
        ⟨some 2, none, some (Json.str "ok")⟩).1.pendingRequests 2 = false) ∧
    (∀ j, j ≠ 2 →
      mapHas (handleResponse sampleClient
          ⟨some 2, none, some (Json.str "ok")⟩).1.pendingRequests j =
        mapHas sampleClient.pendingRequests j) ∧
    ((⟨some 2, none, some (Json.str "ok")⟩ : Response).error = none →
      (handleResponse sampleClient ⟨some 2, none, some (Json.str "ok")⟩).2 =
        [Outcome.resolved 2 (⟨some 2, none, some (Json.str "ok")⟩ :
          Response).result]) ∧
    (∀ e, (⟨some 2, none, some (Json.str "ok")⟩ : Response).error = some e →
      jsonTruthy e = true →
      (handleResponse sampleClient ⟨some 2, none, some (Json.str "ok")⟩).2 =
        [Outcome.rejected 2 (jsErrorMessage e)]) :=
  handleResponse_correlates sampleClient ⟨some 2, none, some (Json.str "ok")⟩ 2
    rfl (by decide)

/-- C3: `sendRequest` arms a 30000 ms timer carrying the request's id
and method; when that timer fires while the id is still pending, the
entry is removed and the promise rejected with `Request timeout:`
followed by the original method; and a response line whose id matches no
pending entry is silently discarded — the client state is returned
unchanged and no promise settles (no outcome, no error). -/
theorem timeout_then_stale_response_dropped (c : Client) (id : Nat) (m : String)
    (resp : Response)
    (hstale : ∀ k, respIdKey resp.id = some k →
      mapHas c.pendingRequests k = false) :
    (requestTimeoutMs = 30000) ∧
    (∀ cs req p, cs.serverProcess = some p → p.stdin = true →
      (sendRequest cs req).2 =
        SendEffect.sent req ⟨req.id, req.method, 30000⟩) ∧
    (mapHas c.pendingRequests id = true →
      onRequestTimeout c id m =
        ({ c with pendingRequests := mapDelete c.pendingRequests id },
         [Outcome.rejected id ("Request timeout: " ++ m)])) ∧
    (handleResponse c resp = (c, [])) := by
  refine ⟨rfl, ?_, ?_, ?_⟩
  · intro cs req p hp hs
    unfold sendRequest
    rw [hp]
    simp only [hs]
    rfl
  · intro hpend
    unfold onRequestTimeout
    simp only [hpend, if_pos]
  · unfold handleResponse
    cases hkey : respIdKey resp.id with
    | none => rfl
    | some k =>
      have := hstale k hkey
      simp only [this]
      rfl

theorem timeout_then_stale_response_dropped_witness :
    (requestTimeoutMs = 30000) ∧
    (∀ cs req p, cs.serverProcess = some p → p.stdin = true →
      (sendRequest cs req).2 =
        SendEffect.sent req ⟨req.id, req.method, 30000⟩) ∧
    (mapHas sampleClient.pendingRequests 2 = true →
      onRequestTimeout sampleClient 2 "tools/call" =
        ({ sampleClient with
            pendingRequests := mapDelete sampleClient.pendingRequests 2 },
         [Outcome.rejected 2 ("Request timeout: " ++ "tools/call")])) ∧
    (handleResponse sampleClient ⟨some 7, none, some (Json.str "late")⟩ =
      (sampleClient, [])) :=
  timeout_then_stale_response_dropped sampleClient 2 "tools/call"
    ⟨some 7, none, some (Json.str "late")⟩ (by decide)

theorem sendRequest_none_eq (c : Client) (req : Request)
    (hp : c.serverProcess = none) :
    sendRequest c req = (c, SendEffect.eagerReject "Server not connected") := by
  unfold sendRequest
  rw [hp]

theorem sendRequest_sent_eq (c : Client) (req : Request) (p : ServerProcess)
    (hp : c.serverProcess = some p) (hs : p.stdin = true) :
    sendRequest c req =
      ({ c with pendingRequests := mapSet c.pendingRequests req.id },
       SendEffect.sent req ⟨req.id, req.method, requestTimeoutMs⟩) := by
  unfold sendRequest
  rw [hp]
  simp only [hs, Bool.not_true, Bool.false_eq_true, if_false]

/-- C5 counterexample: on a freshly constructed client — which is
before the Connected state, `isClientConnected` is `false` — a
`tools/call` request is rejected eagerly by the
`!this.serverProcess || !this.serverProcess.stdin` check with
`Server not connected`: nothing is written, no pending entry is
registered and no timer is armed, contradicting the claim that such a
call is never rejected eagerly by a state check and merely fails the
underlying write or times out. -/
theorem sendRequest_eager_reject_counterexample :
    (sendRequest (mkClient "dist/src/index.js" []) ⟨1, "tools/call", none⟩ =
      (mkClient "dist/src/index.js" [],
       SendEffect.eagerReject "Server not connected")) ∧
    isClientConnected (mkClient "dist/src/index.js" []) = false :=
  ⟨rfl, rfl⟩

/-- C5 amended: the only eager guard in `sendRequest` is the
process-existence check: with no server process the call is rejected
immediately with `Server not connected` and nothing else happens; once
a process with a piped stdin exists, no `isConnected`/`isInitialized`
state is consulted — for every client, whatever its connection flags,
the request is registered in the pending table, written out, and left
to its 30-second timer. -/
theorem sendRequest_guard_only_process (c : Client) (req : Request) :
    (c.serverProcess = none →
      sendRequest c req = (c, SendEffect.eagerReject "Server not connected")) ∧
    (∀ p, c.serverProcess = some p → p.stdin = true →
      sendRequest c req =
        ({ c with pendingRequests := mapSet c.pendingRequests req.id },
         SendEffect.sent req ⟨req.id, req.method, requestTimeoutMs⟩)) := by
  exact ⟨fun h => sendRequest_none_eq c req h,
    fun p hp hs => sendRequest_sent_eq c req p hp hs⟩

theorem sendRequest_guard_only_process_witness :
    (sendRequest (mkClient "dist/src/index.js" []) ⟨1, "resources/read", none⟩ =
      (mkClient "dist/src/index.js" [],
       SendEffect.eagerReject "Server not connected")) ∧
    (sendRequest sampleClient ⟨4, "tools/call", none⟩ =
      ({ sampleClient with
          pendingRequests := mapSet sampleClient.pendingRequests 4 },
       SendEffect.sent ⟨4, "tools/call", none⟩
         ⟨4, "tools/call", requestTimeoutMs⟩)) :=
  ⟨(sendRequest_guard_only_process (mkClient "dist/src/index.js" [])
      ⟨1, "resources/read", none⟩).1 rfl,
   (sendRequest_guard_only_process sampleClient ⟨4, "tools/call", none⟩).2
      ⟨true⟩ rfl rfl⟩

theorem sendRequest_requestId_const (c : Client) (req : Request) :
    (sendRequest c req).1.requestId = c.requestId := by
  unfold sendRequest
  cases hsp : c.serverProcess with
  | none => rfl
  | some p => cases hst : p.stdin <;> simp [hst]

theorem issueRequests_cons (c : Client) (m : String) (ms : List String) :
    issueRequests c (m :: ms) =
      ((issueRequests (issueStep c m) ms).1,
       (c.requestId + 1) :: (issueRequests (issueStep c m) ms).2) := rfl

theorem issueStep_requestId (c : Client) (m : String) :
    (issueStep c m).requestId = c.requestId + 1 :=
  sendRequest_requestId_const { c with requestId := c.requestId + 1 } _

theorem issueRequests_ids_eq (methods : List String) : ∀ c : Client,
    (issueRequests c methods).2 =
      List.range' (c.requestId + 1) methods.length := by
  induction methods with
  | nil => intro c; rfl
  | cons m ms ih =>
    intro c
    rw [issueRequests_cons]
    simp only [List.length_cons, List.range'_succ]
    rw [ih (issueStep c m), issueStep_requestId]

theorem sendRequest_state_cases (c : Client) (req : Request) :
    (sendRequest c req).1 = c ∨
    (sendRequest c req).1 =
      { c with pendingRequests := mapSet c.pendingRequests req.id } := by
  unfold sendRequest
  rcases hsp : c.serverProcess with _ | p
  · exact Or.inl rfl
  · rcases p with ⟨st⟩
    rcases st with _ | _
    · exact Or.inl rfl
    · exact Or.inr rfl

theorem issueStep_inv (c : Client) (m : String) (h : pendingInv c) :
    pendingInv (issueStep c m) := by
  obtain ⟨hnd, hb⟩ := h
  rcases sendRequest_state_cases { c with requestId := c.requestId + 1 }
      ⟨c.requestId + 1, m, none⟩ with hcase | hcase
  · have heq : issueStep c m = { c with requestId := c.requestId + 1 } := hcase
    rw [pendingInv, heq]
    exact ⟨hnd, fun k hk => Nat.le_succ_of_le (hb k hk)⟩
  · have heq : issueStep c m =
        { c with requestId := c.requestId + 1,
                 pendingRequests := mapSet c.pendingRequests (c.requestId + 1) } :=
      hcase
    rw [pendingInv, heq]
    refine ⟨mapSet_nodup _ hnd, fun k hk => ?_⟩
    rcases mem_mapSet.mp hk with hk' | rfl
    · exact Nat.le_succ_of_le (hb k hk')
    · exact Nat.le_refl _

theorem issueRequests_inv (methods : List String) : ∀ c : Client,
    pendingInv c → pendingInv (issueRequests c methods).1 := by
  induction methods with
  | nil => intro c h; exact h
  | cons m ms ih =>
    intro c h
    rw [issueRequests_cons]
    exact ih (issueStep c m) (issueStep_inv c m h)

/-- C2: issuing any number of requests through `getNextId`/`sendRequest`
with no intervening response assigns the consecutive ids
`requestId+1, requestId+2, …`: pairwise distinct, strictly increasing,
and all positive; and at every point of the sequence the pending table
holds at most one entry per id (its keys stay pairwise distinct, and
each fresh id exceeds every id already pending, so an id is never reused
while still pending). -/
theorem issueRequests_ids_distinct_increasing (c : Client)
    (methods : List String) (hnd : c.pendingRequests.Nodup)
    (hb : ∀ k ∈ c.pendingRequests, k ≤ c.requestId) :
    ((issueRequests c methods).2 =
      List.range' (c.requestId + 1) methods.length) ∧
    ((issueRequests c methods).2.Nodup) ∧
    (List.Pairwise (· < ·) (issueRequests c methods).2) ∧
    (∀ i ∈ (issueRequests c methods).2, 0 < i) ∧
    (∀ ms₁ ms₂, methods = ms₁ ++ ms₂ →
      (issueRequests c ms₁).1.pendingRequests.Nodup ∧
      (∀ k ∈ (issueRequests c ms₁).1.pendingRequests,
        k ≤ (issueRequests c ms₁).1.requestId)) := by
  refine ⟨issueRequests_ids_eq methods c, ?_, ?_, ?_, ?_⟩
  · rw [issueRequests_ids_eq methods c]
    exact List.nodup_range' _ _
  · rw [issueRequests_ids_eq methods c]
    exact List.pairwise_lt_range' _ _
  · intro i hi
    rw [issueRequests_ids_eq methods c] at hi
    rcases List.mem_range'.mp hi with ⟨j, _, rfl⟩
    omega
  · intro ms₁ ms₂ _
    exact issueRequests_inv ms₁ c ⟨hnd, hb⟩

theorem issueRequests_ids_distinct_increasing_witness :
    ((issueRequests sampleClient ["tools/list", "resources/list", "tools/call"]).2 =
      List.range' (sampleClient.requestId + 1) 3) ∧
    ((issueRequests sampleClient
        ["tools/list", "resources/list", "tools/call"]).2.Nodup) ∧
    (List.Pairwise (· < ·)
      (issueRequests sampleClient
        ["tools/list", "resources/list", "tools/call"]).2) ∧
    (∀ i ∈ (issueRequests sampleClient
        ["tools/list", "resources/list", "tools/call"]).2, 0 < i) ∧
    (∀ ms₁ ms₂, ["tools/list", "resources/list", "tools/call"] = ms₁ ++ ms₂ →
      (issueRequests sampleClient ms₁).1.pendingRequests.Nodup ∧
      (∀ k ∈ (issueRequests sampleClient ms₁).1.pendingRequests,
        k ≤ (issueRequests sampleClient ms₁).1.requestId)) :=
  issueRequests_ids_distinct_increasing sampleClient
    ["tools/list", "resources/list", "tools/call"] (by decide) (by decide)

theorem sameShell_refl (c : Client) : SameShell c c :=
  ⟨rfl, rfl, rfl, rfl, rfl, rfl, rfl⟩

theorem sameShell_trans {a b c : Client} (h1 : SameShell a b)
    (h2 : SameShell b c) : SameShell a c := by
  obtain ⟨x1, x2, x3, x4, x5, x6, x7⟩ := h1
  obtain ⟨y1, y2, y3, y4, y5, y6, y7⟩ := h2
  exact ⟨y1.trans x1, y2.trans x2, y3.trans x3, y4.trans x4, y5.trans x5,
    y6.trans x6, y7.trans x7⟩

theorem sendRequest_shell (c : Client) (req : Request) :
    SameShell c (sendRequest c req).1 := by
  rcases sendRequest_state_cases c req with h | h
  · rw [h]; exact sameShell_refl c
  · rw [h]; exact ⟨rfl, rfl, rfl, rfl, rfl, rfl, rfl⟩

theorem handleResponse_shell (c : Client) (resp : Response) :
    SameShell c (handleResponse c resp).1 := by
  unfold handleResponse
  repeat' split
  all_goals first
    | exact sameShell_refl c
    | exact ⟨rfl, rfl, rfl, rfl, rfl, rfl, rfl⟩

theorem onRequestTimeout_shell (c : Client) (id : Nat) (m : String) :
    SameShell c (onRequestTimeout c id m).1 := by
  unfold onRequestTimeout
  repeat' split
  all_goals first
    | exact sameShell_refl c
    | exact ⟨rfl, rfl, rfl, rfl, rfl, rfl, rfl⟩

theorem roundTrip_shell (c : Client) (m : String) (pj : Option Json)
    (r : ReqReply) : SameShell c (roundTrip c m pj r).1 := by
  have h1 : SameShell c ({ c with requestId := c.requestId + 1 } : Client) :=
    ⟨rfl, rfl, rfl, rfl, rfl, rfl, rfl⟩
  show SameShell c
    (match sendRequest { c with requestId := c.requestId + 1 }
        ⟨c.requestId + 1, m, pj⟩ with
     | (c2, SendEffect.eagerReject msg) => (c2, Except.error msg)
     | (c2, SendEffect.sent _ _) => awaitReply c2 (c.requestId + 1) m r).1
  have h2 := sendRequest_shell { c with requestId := c.requestId + 1 }
    ⟨c.requestId + 1, m, pj⟩
  rcases hsr : sendRequest { c with requestId := c.requestId + 1 }
      ⟨c.requestId + 1, m, pj⟩ with ⟨c2, fx⟩
  rw [hsr] at h2
  have h12 : SameShell c c2 := sameShell_trans h1 h2
  cases fx with
  | eagerReject msg => exact h12
  | sent w t =>
    cases r with
    | answered resp =>
      exact sameShell_trans h12 (handleResponse_shell c2 _)
    | timedOut =>
      exact sameShell_trans h12 (onRequestTimeout_shell c2 _ _)

theorem settleValue_id_irrelevant (resp : Response) (i : Option Int) :
    settleValue { resp with id := i } = settleValue resp := rfl

theorem roundTrip_value (c : Client) (m : String) (pj : Option Json)
    (r : ReqReply) (p : ServerProcess) (hp : c.serverProcess = some p)
    (hs : p.stdin = true) :
    (roundTrip c m pj r).2 =
      (match r with
       | ReqReply.answered resp => settleValue resp
       | ReqReply.timedOut => Except.error ("Request timeout: " ++ m)) := by
  have hsend := sendRequest_sent_eq { c with requestId := c.requestId + 1 }
    ⟨c.requestId + 1, m, pj⟩ p hp hs
  show (match sendRequest { c with requestId := c.requestId + 1 }
      ⟨c.requestId + 1, m, pj⟩ with
     | (c2, SendEffect.eagerReject msg) => (c2, Except.error msg)
     | (c2, SendEffect.sent _ _) => awaitReply c2 (c.requestId + 1) m r).2 = _
  rw [hsend]
  cases r with
  | answered resp => exact settleValue_id_irrelevant resp _
  | timedOut => rfl

theorem waitForServerReady_timeout (trace : List StartupEv)
    (hnr : ∀ s, StartupEv.stderrData s ∈ trace →
      containsSubstring s "Server running" = false)
    (ht : StartupEv.startupTimeout ∈ trace) :
    waitForServerReady trace =
      some (Except.error "Server startup timeout") := by
  induction trace with
  | nil => cases ht
  | cons ev rest ih =>
    cases ev with
    | stderrData s =>
      have hs := hnr s (List.mem_cons_self _ _)
      have ht' : StartupEv.startupTimeout ∈ rest := by
        rcases List.mem_cons.mp ht with h | h
        · exact absurd h (by intro hh; cases hh)
        · exact h
      have hrec : waitForServerReady (StartupEv.stderrData s :: rest) =
          waitForServerReady rest := by
        show (if containsSubstring s "Server running" = true
              then some (Except.ok ()) else waitForServerReady rest) =
          waitForServerReady rest
        rw [hs]
        simp
      rw [hrec]
      exact ih (fun s' h' => hnr s' (List.mem_cons_of_mem _ h')) ht'
    | procErrorEv msg =>
      have ht' : StartupEv.startupTimeout ∈ rest := by
        rcases List.mem_cons.mp ht with h | h
        · exact absurd h (by intro hh; cases hh)
        · exact h
      exact ih (fun s' h' => hnr s' (List.mem_cons_of_mem _ h')) ht'
    | startupTimeout => rfl

/-- C4 counterexample: a run in which the server command cannot be
started — the child process emits a spawn error event and never signals
readiness, so the 10-second startup timer fires. `connect()` does reject,
but with the generic `Server startup timeout` error from
`waitForServerReady`, not with the spawn error: the spawn failure
surfaces only as an `error` event emitted by the
`serverProcess.on('error')` handler, which neither rejects `connect()`
nor aborts anything. So the claim that `connect()` fails with a
`ProcessSpawnError` surfaced to the caller as the rejected call is false
on this input. -/
theorem connect_spawn_error_counterexample :
    (connectResult (mkClient "missing/index.js" [])
        [StartupEv.procErrorEv "spawn node ENOENT", StartupEv.startupTimeout]
        (ReqReply.answered ⟨some 1, none, some (Json.obj [])⟩)
        ReqReply.timedOut ReqReply.timedOut =
      some (Except.error "Server startup timeout")) ∧
    (startupEmits [StartupEv.procErrorEv "spawn node ENOENT",
        StartupEv.startupTimeout] = [Emit.errorEv "spawn node ENOENT"]) ∧
    ("Server startup timeout" ≠ "spawn node ENOENT") :=
  ⟨rfl, rfl, by decide⟩

/-- C4 amended: when the server command cannot be started, the spawn
error is only emitted as an `error` event by the process-error handler
(the client state is untouched and no promise settles); `connect()`
itself is not rejected with any spawn error — since no readiness line
ever appears on stderr, it rejects with the generic
`Server startup timeout` error when the 10000 ms startup timer fires. -/
theorem spawn_failure_only_emits_error_event (c : Client) (msg : String)
    (trace : List StartupEv) (r rt rr : ReqReply)
    (hnr : ∀ s, StartupEv.stderrData s ∈ trace →
      containsSubstring s "Server running" = false)
    (ht : StartupEv.startupTimeout ∈ trace) :
    (onProcessError c msg = (c, [Emit.errorEv msg])) ∧
    (connectResult c trace r rt rr =
      some (Except.error "Server startup timeout")) ∧
    (startupTimeoutMs = 10000) := by
  refine ⟨rfl, ?_, rfl⟩
  unfold connectResult
  rw [waitForServerReady_timeout trace hnr ht]

theorem spawn_failure_only_emits_error_event_witness :
    (onProcessError (mkClient "missing/index.js" []) "spawn node EACCES" =
      (mkClient "missing/index.js" [], [Emit.errorEv "spawn node EACCES"])) ∧
    (connectResult (mkClient "missing/index.js" [])
        [StartupEv.procErrorEv "spawn node EACCES", StartupEv.startupTimeout]
        ReqReply.timedOut ReqReply.timedOut ReqReply.timedOut =
      some (Except.error "Server startup timeout")) ∧
    (startupTimeoutMs = 10000) :=
  spawn_failure_only_emits_error_event (mkClient "missing/index.js" [])
    "spawn node EACCES"
    [StartupEv.procErrorEv "spawn node EACCES", StartupEv.startupTimeout]
    ReqReply.timedOut ReqReply.timedOut ReqReply.timedOut
    (by
      intro s hs
      rcases List.mem_cons.mp hs with h | h
      · cases h
      · rcases List.mem_cons.mp h with h2 | h2
        · cases h2
        · cases h2)
    (List.mem_cons_of_mem _ (List.mem_cons_self _ _))

theorem roundTrip_value_answered (c : Client) (m : String) (pj : Option Json)
    (resp : Response) (p : ServerProcess) (hp : c.serverProcess = some p)
    (hs : p.stdin = true) :
    (roundTrip c m pj (ReqReply.answered resp)).2 = settleValue resp :=
  roundTrip_value c m pj (ReqReply.answered resp) p hp hs

theorem roundTrip_value_timedOut (c : Client) (m : String) (pj : Option Json)
    (p : ServerProcess) (hp : c.serverProcess = some p) (hs : p.stdin = true) :
    (roundTrip c m pj ReqReply.timedOut).2 =
      Except.error ("Request timeout: " ++ m) :=
  roundTrip_value c m pj ReqReply.timedOut p hp hs

theorem replyFailed_timedOut_eq : replyFailed ReqReply.timedOut = true := rfl

theorem replyFailed_answered_eq (resp : Response) :
    replyFailed (ReqReply.answered resp) =
      (match settleValue resp with
       | Except.error _ => true
       | Except.ok none => true
       | Except.ok (some v) => jsNullish v) := rfl

theorem applyResources_shell (c3 : Client) (rres : Json) :
    ((applyResources c3 rres).serverProcess = c3.serverProcess) ∧
    ((applyResources c3 rres).isConnected = c3.isConnected) ∧
    ((applyResources c3 rres).isInitialized = c3.isInitialized) ∧
    ((applyResources c3 rres).availableTools = c3.availableTools) := by
  unfold applyResources
  by_cases hn : jsNullish rres = true
  · rw [if_pos hn]
    exact ⟨rfl, rfl, rfl, rfl⟩
  · rw [if_neg hn]
    exact ⟨rfl, rfl, rfl, rfl⟩

theorem loadResourcesInto_shell (c2 : Client) (rr : ReqReply) :
    ((loadResourcesInto c2 rr).serverProcess = c2.serverProcess) ∧
    ((loadResourcesInto c2 rr).isConnected = c2.isConnected) ∧
    ((loadResourcesInto c2 rr).isInitialized = c2.isInitialized) ∧
    ((loadResourcesInto c2 rr).availableTools = c2.availableTools) := by
  obtain ⟨_, _, e3, e4, e5, e6, _⟩ :=
    roundTrip_shell c2 "resources/list" none rr
  unfold loadResourcesInto listResources
  cases hres : (roundTrip c2 "resources/list" none rr).2 with
  | error m => exact ⟨e3, e4, e5, e6⟩
  | ok v =>
    cases v with
    | none => exact ⟨e3, e4, e5, e6⟩
    | some rres =>
      obtain ⟨g3, g4, g5, g6⟩ :=
        applyResources_shell (roundTrip c2 "resources/list" none rr).1 rres
      exact ⟨g3.trans e3, g4.trans e4, g5.trans e5, g6.trans e6⟩

theorem applyTools_shell (c1 : Client) (tr : Json) (rr : ReqReply) :
    ((applyTools c1 tr rr).serverProcess = c1.serverProcess) ∧
    ((applyTools c1 tr rr).isConnected = c1.isConnected) ∧
    ((applyTools c1 tr rr).isInitialized = c1.isInitialized) := by
  unfold applyTools
  by_cases hn : jsNullish tr = true
  · rw [if_pos hn]
    exact ⟨rfl, rfl, rfl⟩
  · rw [if_neg hn]
    obtain ⟨f3, f4, f5, _⟩ :=
      loadResourcesInto_shell
        { c1 with availableTools := jsTruthyOrEmptyArr (jsFieldOpt tr "tools") }
        rr
    exact ⟨f3, f4, f5⟩

theorem loadCapabilities_shell (c : Client) (rt rr : ReqReply) :
    ((loadCapabilities c rt rr).serverProcess = c.serverProcess) ∧
    ((loadCapabilities c rt rr).isConnected = c.isConnected) ∧
    ((loadCapabilities c rt rr).isInitialized = c.isInitialized) := by
  obtain ⟨_, _, e3, e4, e5, _, _⟩ := roundTrip_shell c "tools/list" none rt
  unfold loadCapabilities listTools
  cases htl : (roundTrip c "tools/list" none rt).2 with
  | error m => exact ⟨e3, e4, e5⟩
  | ok v =>
    cases v with
    | none => exact ⟨e3, e4, e5⟩
    | some tr =>
      obtain ⟨f3, f4, f5⟩ :=
        applyTools_shell (roundTrip c "tools/list" none rt).1 tr rr
      exact ⟨f3.trans e3, f4.trans e4, f5.trans e5⟩

theorem loadResourcesInto_fail (c2 : Client) (rr : ReqReply)
    (p : ServerProcess) (hp : c2.serverProcess = some p) (hs : p.stdin = true)
    (hr : replyFailed rr = true) :
    (loadResourcesInto c2 rr).availableResources = c2.availableResources := by
  obtain ⟨_, _, _, _, _, _, e7⟩ := roundTrip_shell c2 "resources/list" none rr
  unfold loadResourcesInto listResources
  cases rr with
  | timedOut =>
    rw [roundTrip_value_timedOut c2 "resources/list" none p hp hs]
    exact e7
  | answered resp =>
    have hv := roundTrip_value_answered c2 "resources/list" none resp p hp hs
    cases hsv : settleValue resp with
    | error m => rw [hv, hsv]; exact e7
    | ok v =>
      cases v with
      | none => rw [hv, hsv]; exact e7
      | some rres =>
        rw [replyFailed_answered_eq, hsv] at hr
        have hr2 : jsNullish rres = true := hr
        rw [hv, hsv]
        show (applyResources (roundTrip c2 "resources/list" none
            (ReqReply.answered resp)).1 rres).availableResources =
          c2.availableResources
        unfold applyResources
        rw [if_pos hr2]
        exact e7

theorem loadCapabilities_fail_tools (c : Client) (rt rr : ReqReply)
    (p : ServerProcess) (hp : c.serverProcess = some p) (hs : p.stdin = true)
    (hf : replyFailed rt = true) :
    ((loadCapabilities c rt rr).availableTools = c.availableTools) ∧
    ((loadCapabilities c rt rr).availableResources = c.availableResources) := by
  obtain ⟨_, _, _, _, _, e6, e7⟩ := roundTrip_shell c "tools/list" none rt
  unfold loadCapabilities listTools
  cases rt with
  | timedOut =>
    rw [roundTrip_value_timedOut c "tools/list" none p hp hs]
    exact ⟨e6, e7⟩
  | answered resp =>
    have hv := roundTrip_value_answered c "tools/list" none resp p hp hs
    cases hsv : settleValue resp with
    | error m => rw [hv, hsv]; exact ⟨e6, e7⟩
    | ok v =>
      cases v with
      | none => rw [hv, hsv]; exact ⟨e6, e7⟩
      | some tr =>
        rw [replyFailed_answered_eq, hsv] at hf
        have hf2 : jsNullish tr = true := hf
        rw [hv, hsv]
        constructor
        · show (applyTools (roundTrip c "tools/list" none
              (ReqReply.answered resp)).1 tr rr).availableTools =
            c.availableTools
          unfold applyTools
          rw [if_pos hf2]
          exact e6
        · show (applyTools (roundTrip c "tools/list" none
              (ReqReply.answered resp)).1 tr rr).availableResources =
            c.availableResources
          unfold applyTools
          rw [if_pos hf2]
          exact e7

theorem loadCapabilities_fail_resources (c : Client) (rt rr : ReqReply)
    (p : ServerProcess) (hp : c.serverProcess = some p) (hs : p.stdin = true)
    (hok : replyFailed rt = false) (hr : replyFailed rr = true) :
    (loadCapabilities c rt rr).availableResources = c.availableResources := by
  obtain ⟨_, _, e3, _, _, _, e7⟩ := roundTrip_shell c "tools/list" none rt
  unfold loadCapabilities listTools
  cases rt with
  | timedOut =>
    exfalso
    rw [replyFailed_timedOut_eq] at hok
    simp at hok
  | answered resp =>
    have hv := roundTrip_value_answered c "tools/list" none resp p hp hs
    cases hsv : settleValue resp with
    | error m =>
      exfalso
      rw [replyFailed_answered_eq, hsv] at hok
      simp at hok
    | ok v =>
      cases v with
      | none =>
        exfalso
        rw [replyFailed_answered_eq, hsv] at hok
        simp at hok
      | some tr =>
        rw [replyFailed_answered_eq, hsv] at hok
        have hok2 : jsNullish tr = false := hok
        rw [hv, hsv]
        show (applyTools (roundTrip c "tools/list" none
            (ReqReply.answered resp)).1 tr rr).availableResources =
          c.availableResources
        unfold applyTools
        rw [if_neg (by rw [hok2]; exact Bool.false_ne_true)]
        have hp2 : ({ (roundTrip c "tools/list" none
              (ReqReply.answered resp)).1 with
            availableTools := jsTruthyOrEmptyArr (jsFieldOpt tr "tools") } :
              Client).serverProcess = some p := by
          show (roundTrip c "tools/list" none
            (ReqReply.answered resp)).1.serverProcess = some p
          rw [e3, hp]
        have hres := loadResourcesInto_fail _ rr p hp2 hs hr
        exact hres.trans e7

theorem initErrorCheck_some (c1 : Client) (v : Json) :
    initErrorCheck c1 (some v) =
      (if jsonTruthy v = true then
        Except.error
          ("Initialization failed: " ++ displayJson (jsFieldOpt v "message"))
      else Except.ok { c1 with isInitialized := true }) := rfl

theorem initErrorCheck_none (c1 : Client) :
    initErrorCheck c1 none = Except.ok { c1 with isInitialized := true } :=
  rfl

theorem initCheck_ok_some (c1 : Client) (res : Json)
    (hnn : jsNullish res = false)
    (hnoerr : ∀ v, jsFieldOpt res "error" = some v → jsonTruthy v = false) :
    initCheck c1 (Except.ok (some res)) =
      Except.ok { c1 with isInitialized := true } := by
  show initResultCheck c1 res = Except.ok { c1 with isInitialized := true }
  unfold initResultCheck
  rw [if_neg (by rw [hnn]; exact Bool.false_ne_true)]
  cases hf : jsFieldOpt res "error" with
  | none => exact initErrorCheck_none c1
  | some v =>
    have hneg : ¬(jsonTruthy v = true) := by
      rw [hnoerr v hf]
      exact Bool.false_ne_true
    rw [initErrorCheck_some, if_neg hneg]

theorem initHandshake_ok_shape (c : Client) (r : ReqReply) (c' : Client)
    (h : initHandshake c r = Except.ok c') :
    c'.isInitialized = true ∧ c'.serverProcess = c.serverProcess ∧
    c'.isConnected = c.isConnected ∧ c'.availableTools = c.availableTools ∧
    c'.availableResources = c.availableResources := by
  obtain ⟨_, _, e3, e4, _, e6, e7⟩ :=
    roundTrip_shell c "initialize" (some initParams) r
  unfold initHandshake at h
  cases hres : (roundTrip c "initialize" (some initParams) r).2 with
  | error e =>
    rw [hres] at h
    exact Except.noConfusion h
  | ok v =>
    cases v with
    | none =>
      rw [hres] at h
      exact Except.noConfusion h
    | some res =>
      rw [hres] at h
      have h2 : initResultCheck
          (roundTrip c "initialize" (some initParams) r).1 res =
          Except.ok c' := h
      unfold initResultCheck at h2
      by_cases hn : jsNullish res = true
      case pos =>
        rw [if_pos hn] at h2
        exact Except.noConfusion h2
      case neg =>
        rw [if_neg hn] at h2
        cases hf : jsFieldOpt res "error" with
        | none =>
          rw [hf, initErrorCheck_none] at h2
          injection h2 with h3
          rw [← h3]
          exact ⟨rfl, e3, e4, e6, e7⟩
        | some v =>
          rw [hf, initErrorCheck_some] at h2
          by_cases htr : jsonTruthy v = true
          · rw [if_pos htr] at h2
            exact Except.noConfusion h2
          · rw [if_neg htr] at h2
            injection h2 with h3
            rw [← h3]
            exact ⟨rfl, e3, e4, e6, e7⟩

/-- C6: during the handshake, a JSON-RPC response to the `initialize`
request that carries a (truthy) `error` field makes `initialize()` fail —
the request promise is rejected with the error's message, and the
rejection propagates out of `initialize()`. A JSON-null `result` payload
(no `error` field) also makes `initialize()` fail, with the `TypeError`
thrown by line 156's property access. A success response — no `error`
field and a non-null `result` payload with no truthy `error` property —
makes `initialize()` succeed with `isInitialized` set. -/
theorem initialize_error_fails_success_marks (c : Client) (resp : Response)
    (rt rr : ReqReply) (p : ServerProcess) (hp : c.serverProcess = some p)
    (hs : p.stdin = true) :
    (∀ e, resp.error = some e → jsonTruthy e = true →
      initializeSession c (ReqReply.answered resp) rt rr =
        Except.error (jsErrorMessage e)) ∧
    (resp.error = none → resp.result = some Json.null →
      initializeSession c (ReqReply.answered resp) rt rr =
        Except.error "TypeError: Cannot read properties of null") ∧
    (resp.error = none →
      ∀ res, resp.result = some res → jsNullish res = false →
      (∀ v, jsFieldOpt res "error" = some v → jsonTruthy v = false) →
      ∃ c', initializeSession c (ReqReply.answered resp) rt rr =
          Except.ok c' ∧ c'.isInitialized = true) := by
  have hv := roundTrip_value_answered c "initialize" (some initParams) resp
    p hp hs
  refine ⟨?_, ?_, ?_⟩
  · intro e he htr
    have hsv : settleValue resp = Except.error (jsErrorMessage e) := by
      unfold settleValue
      rw [he]
      show (if jsonTruthy e = true then Except.error (jsErrorMessage e)
        else Except.ok resp.result) = Except.error (jsErrorMessage e)
      rw [if_pos htr]
    have hih : initHandshake c (ReqReply.answered resp) =
        Except.error (jsErrorMessage e) := by
      unfold initHandshake
      rw [hv, hsv]
      rfl
    unfold initializeSession
    rw [hih]
  · intro hne hresnull
    have hsv : settleValue resp = Except.ok (some Json.null) := by
      unfold settleValue
      rw [hne, hresnull]
    have hih : initHandshake c (ReqReply.answered resp) =
        Except.error "TypeError: Cannot read properties of null" := by
      unfold initHandshake
      rw [hv, hsv]
      rfl
    unfold initializeSession
    rw [hih]
  · intro hne res hres hnn hnoerr
    have hsv : settleValue resp = Except.ok (some res) := by
      unfold settleValue
      rw [hne, hres]
    have hih : initHandshake c (ReqReply.answered resp) =
        Except.ok
          { (roundTrip c "initialize" (some initParams)
              (ReqReply.answered resp)).1 with isInitialized := true } := by
      unfold initHandshake
      rw [hv, hsv]
      exact initCheck_ok_some _ res hnn hnoerr
    refine ⟨loadCapabilities
        { (roundTrip c "initialize" (some initParams)
            (ReqReply.answered resp)).1 with isInitialized := true } rt rr,
      ?_, ?_⟩
    · unfold initializeSession
      rw [hih]
    · obtain ⟨_, _, e5⟩ := loadCapabilities_shell
        { (roundTrip c "initialize" (some initParams)
            (ReqReply.answered resp)).1 with isInitialized := true } rt rr
      rw [e5]

theorem initialize_error_fails_success_marks_witness :
    (∀ e, (⟨some 1, some (Json.obj [("message", Json.str "boom")]),
        none⟩ : Response).error = some e → jsonTruthy e = true →
      initializeSession sampleClient
          (ReqReply.answered
            ⟨some 1, some (Json.obj [("message", Json.str "boom")]), none⟩)
          ReqReply.timedOut ReqReply.timedOut =
        Except.error (jsErrorMessage e)) ∧
    ((⟨some 1, none, some Json.null⟩ : Response).error = none →
      (⟨some 1, none, some Json.null⟩ : Response).result = some Json.null →
      initializeSession sampleClient
          (ReqReply.answered ⟨some 1, none, some Json.null⟩)
          ReqReply.timedOut ReqReply.timedOut =
        Except.error "TypeError: Cannot read properties of null") ∧
    ((⟨some 1, none, some (Json.obj [])⟩ : Response).error = none →
      ∀ res, (⟨some 1, none, some (Json.obj [])⟩ : Response).result =
        some res → jsNullish res = false →
      (∀ v, jsFieldOpt res "error" = some v → jsonTruthy v = false) →
      ∃ c', initializeSession sampleClient
          (ReqReply.answered ⟨some 1, none, some (Json.obj [])⟩)
          ReqReply.timedOut ReqReply.timedOut =
          Except.ok c' ∧ c'.isInitialized = true) :=
  ⟨(initialize_error_fails_success_marks sampleClient
      ⟨some 1, some (Json.obj [("message", Json.str "boom")]), none⟩
      ReqReply.timedOut ReqReply.timedOut ⟨true⟩ rfl rfl).1,
   (initialize_error_fails_success_marks sampleClient
      ⟨some 1, none, some Json.null⟩
      ReqReply.timedOut ReqReply.timedOut ⟨true⟩ rfl rfl).2.1,
   (initialize_error_fails_success_marks sampleClient
      ⟨some 1, none, some (Json.obj [])⟩
      ReqReply.timedOut ReqReply.timedOut ⟨true⟩ rfl rfl).2.2⟩

/-- C7: when `connect()` gets past readiness and the `initialize`
handshake, a failure of the `tools/list` or `resources/list` call during
capability loading is caught and logged only — the connect sequence
still completes with `isConnected` set, and the catalog(s) whose load
failed keep their constructor defaults (the empty list for a fresh
client): a `tools/list` failure skips `resources/list` and leaves both
catalogs untouched; a `resources/list` failure leaves the resource
catalog untouched. -/
theorem capability_load_failure_nonfatal (c : Client) (trace : List StartupEv)
    (r rt rr : ReqReply) (c₁ : Client)
    (hready : waitForServerReady trace = some (Except.ok ()))
    (hinit : initHandshake { c with serverProcess := some ⟨true⟩ } r =
      Except.ok c₁) :
    ∃ c₂, connectResult c trace r rt rr = some (Except.ok c₂) ∧
      c₂.isConnected = true ∧
      (replyFailed rt = true →
        c₂.availableTools = c.availableTools ∧
        c₂.availableResources = c.availableResources) ∧
      (replyFailed rt = false → replyFailed rr = true →
        c₂.availableResources = c.availableResources) := by
  obtain ⟨hini, hsp, hic, hat, har⟩ :=
    initHandshake_ok_shape { c with serverProcess := some ⟨true⟩ } r c₁ hinit
  have hp1 : c₁.serverProcess = some (⟨true⟩ : ServerProcess) := hsp
  refine ⟨{ loadCapabilities c₁ rt rr with isConnected := true },
    ?_, rfl, ?_, ?_⟩
  · unfold connectResult
    rw [hready]
    unfold initializeSession
    rw [hinit]
  · intro hft
    obtain ⟨g6, g7⟩ := loadCapabilities_fail_tools c₁ rt rr ⟨true⟩ hp1 rfl hft
    constructor
    · show (loadCapabilities c₁ rt rr).availableTools = c.availableTools
      rw [g6, hat]
    · show (loadCapabilities c₁ rt rr).availableResources =
        c.availableResources
      rw [g7, har]
  · intro hft hfr
    have g7 := loadCapabilities_fail_resources c₁ rt rr ⟨true⟩ hp1 rfl hft hfr
    show (loadCapabilities c₁ rt rr).availableResources = c.availableResources
    rw [g7, har]

theorem capability_load_failure_nonfatal_witness :
    ∃ c₂, connectResult (mkClient "dist/src/index.js" [])
        [StartupEv.stderrData "Server running"]
        (ReqReply.answered ⟨some 1, none, some (Json.obj [])⟩)
        ReqReply.timedOut ReqReply.timedOut = some (Except.ok c₂) ∧
      c₂.isConnected = true ∧
      (replyFailed ReqReply.timedOut = true →
        c₂.availableTools = (mkClient "dist/src/index.js" []).availableTools ∧
        c₂.availableResources =
          (mkClient "dist/src/index.js" []).availableResources) ∧
      (replyFailed ReqReply.timedOut = false →
        replyFailed ReqReply.timedOut = true →
        c₂.availableResources =
          (mkClient "dist/src/index.js" []).availableResources) :=
  capability_load_failure_nonfatal (mkClient "dist/src/index.js" [])
    [StartupEv.stderrData "Server running"]
    (ReqReply.answered ⟨some 1, none, some (Json.obj [])⟩)
    ReqReply.timedOut ReqReply.timedOut
    { mkClient "dist/src/index.js" [] with
        serverProcess := some ⟨true⟩
        requestId := 1
        isInitialized := true }
    (by rfl) (by rfl)

/-- C10: `isClientConnected()` returns the conjunction of the
`isConnected` and `isInitialized` flags; it is false on a freshly
constructed client, true on the client produced by a successful
`connect()`, false after `disconnect()` (which clears both flags), and
false after a process exit — which clears `isConnected` only, leaving
`isInitialized` as it was. -/
theorem isClientConnected_conjunction :
    (∀ c : Client, isClientConnected c = (c.isConnected && c.isInitialized)) ∧
    (∀ path args, isClientConnected (mkClient path args) = false) ∧
    (∀ c trace r rt rr c',
      connectResult c trace r rt rr = some (Except.ok c') →
      isClientConnected c' = true) ∧
    (∀ c : Client, isClientConnected (disconnect c).1 = false ∧
      (disconnect c).1.isConnected = false ∧
      (disconnect c).1.isInitialized = false) ∧
    (∀ c code sig, isClientConnected (onExit c code sig).1 = false ∧
      (onExit c code sig).1.isInitialized = c.isInitialized) := by
  refine ⟨fun c => rfl, fun path args => rfl, ?_, fun c => ⟨rfl, rfl, rfl⟩,
    fun c code sig => ⟨?_, rfl⟩⟩
  · intro c trace r rt rr c' h
    unfold connectResult at h
    cases hw : waitForServerReady trace with
    | none =>
      rw [hw] at h
      exact Option.noConfusion h
    | some res =>
      rw [hw] at h
      cases res with
      | error e =>
        have h2 : (some (Except.error e) : Option (Except String Client)) =
            some (Except.ok c') := h
        injection h2 with h3
        exact Except.noConfusion h3
      | ok u =>
        cases hi : initializeSession { c with serverProcess := some ⟨true⟩ }
            r rt rr with
        | error e2 =>
          rw [hi] at h
          have h2 : (some (Except.error e2) :
              Option (Except String Client)) = some (Except.ok c') := h
          injection h2 with h3
          exact Except.noConfusion h3
        | ok c1 =>
          rw [hi] at h
          have h2 : (some (Except.ok { c1 with isConnected := true }) :
              Option (Except String Client)) = some (Except.ok c') := h
          injection h2 with h3
          injection h3 with h4
          rw [← h4]
          unfold initializeSession at hi
          cases hh : initHandshake { c with serverProcess := some ⟨true⟩ }
              r with
          | error e3 =>
            rw [hh] at hi
            exact Except.noConfusion hi
          | ok c2 =>
            rw [hh] at hi
            have hi2 : (Except.ok (loadCapabilities c2 rt rr) :
                Except String Client) = Except.ok c1 := hi
            injection hi2 with hi3
            obtain ⟨hini, _, _, _, _⟩ :=
              initHandshake_ok_shape _ r c2 hh
            obtain ⟨_, _, f5⟩ := loadCapabilities_shell c2 rt rr
            have hc1 : c1.isInitialized = true := by
              rw [← hi3, f5, hini]
            simp [isClientConnected, hc1]
  · simp [isClientConnected, onExit]

theorem isClientConnected_conjunction_witness :
    isClientConnected connectedSample = true :=
  isClientConnected_conjunction.2.2.1 (mkClient "dist/src/index.js" [])
    [StartupEv.stderrData "Server running"]
    (ReqReply.answered ⟨some 1, none, some (Json.obj [])⟩)
    ReqReply.timedOut ReqReply.timedOut connectedSample (by rfl)

end MCP
